import Mathlib

/-!
Shallow embedding of the yt-explorer page component, in its two source
variants: `src/app/page.tsx` (called V1 below; it has a `publishedAfter`
recency filter) and `src/unnamed/part_000` (called V2 below; no recency
filter, and it reverses the response items before storing them).

Pure logic (the recency-to-timestamp translation, request construction,
`getUrl`, the state update performed by `handleSearch`, the disabled
conditions of the buttons, and the library-readiness polling loop) is
translated into executable Lean definitions.  JavaScript string
truthiness (`""` and `null`/`undefined` are falsy) is modelled by
`jsTruthy` on `Option String`, and `x || null` by `orNull`.
-/

namespace YTExplorer

/-- JavaScript truthiness of a `string | null | undefined` value:
`null`/`undefined` and the empty string are falsy. -/
def jsTruthy : Option String → Bool
  | none => false
  | some s => s != ""

/-- The JavaScript expression `x || null` for `x : string | undefined`:
a falsy `x` (absent or empty) collapses to `null`. -/
def orNull : Option String → Option String
  | none => none
  | some s => if s = "" then none else some s

/-- Left-pad the decimal rendering of `n` with zeros to width `w`
(as ECMAScript date formatting does). -/
def padNum (w : Nat) (n : Nat) : String :=
  let s := toString n
  if s.length < w then String.mk (List.replicate (w - s.length) '0') ++ s else s

/-- Gregorian civil date (year, month, day) of a day count relative to
1970-01-01 (Howard Hinnant's `civil_from_days`, the arithmetic underlying
ECMAScript `Date` UTC conversion). -/
def civilFromDays (z : Int) : Int × Nat × Nat :=
  let z2 := z + 719468
  let era := z2.ediv 146097
  let doe := (z2 - era * 146097).toNat
  let yoe := (doe - doe / 1460 + doe / 36524 - doe / 146096) / 365
  let y := (yoe : Int) + era * 400
  let doy := doe - (365 * yoe + yoe / 4 - yoe / 100)
  let mp := (5 * doy + 2) / 153
  let d := doy - (153 * mp + 2) / 5 + 1
  let m := if mp < 10 then mp + 3 else mp - 9
  (if m ≤ 2 then y + 1 else y, m, d)

/-- `new Date(ms).toISOString()`: the UTC ISO-8601 rendering
`YYYY-MM-DDTHH:mm:ss.sssZ` of a millisecond timestamp. -/
def toISOString (ms : Int) : String :=
  let days := ms.ediv 86400000
  let msOfDay := (ms.emod 86400000).toNat
  let c := civilFromDays days
  padNum 4 c.1.toNat ++ "-" ++ padNum 2 c.2.1 ++ "-" ++ padNum 2 c.2.2 ++ "T" ++
    padNum 2 (msOfDay / 3600000) ++ ":" ++ padNum 2 (msOfDay / 60000 % 60) ++ ":" ++
    padNum 2 (msOfDay / 1000 % 60) ++ "." ++ padNum 3 (msOfDay % 1000) ++ "Z"

/-- V1 sort orders: `'relevance' | 'date' | 'rating' | 'title' | 'viewCount'`. -/
inductive SortOrder where
  | relevance | date | rating | title | viewCount
deriving DecidableEq, Repr

def SortOrder.toStr : SortOrder → String
  | .relevance => "relevance"
  | .date => "date"
  | .rating => "rating"
  | .title => "title"
  | .viewCount => "viewCount"

/-- V2 sort orders additionally admit `'videoCount'`. -/
inductive SortOrderV2 where
  | relevance | date | rating | title | videoCount | viewCount
deriving DecidableEq, Repr

def SortOrderV2.toStr : SortOrderV2 → String
  | .relevance => "relevance"
  | .date => "date"
  | .rating => "rating"
  | .title => "title"
  | .videoCount => "videoCount"
  | .viewCount => "viewCount"

/-- `'video' | 'channel' | 'playlist'`. -/
inductive ResultType where
  | video | channel | playlist
deriving DecidableEq, Repr

def ResultType.toStr : ResultType → String
  | .video => "video"
  | .channel => "channel"
  | .playlist => "playlist"

/-- `'any' | 'short' | 'medium' | 'long'`. -/
inductive VideoDuration where
  | any | short | medium | long
deriving DecidableEq, Repr

def VideoDuration.toStr : VideoDuration → String
  | .any => "any"
  | .short => "short"
  | .medium => "medium"
  | .long => "long"

/-- `'any' | 'high' | 'standard'`. -/
inductive VideoDefinition where
  | any | high | standard
deriving DecidableEq, Repr

def VideoDefinition.toStr : VideoDefinition → String
  | .any => "any"
  | .high => "high"
  | .standard => "standard"

/-- V1 recency filter `publishedAfter: 'any' | 'week' | 'day'`. -/
inductive PublishedAfter where
  | any | week | day
deriving DecidableEq, Repr

/-- V1 `SearchParams` (`src/app/page.tsx`), including the recency filter. -/
structure SearchParams where
  q : String
  maxResults : Nat
  order : SortOrder
  type : ResultType
  videoDuration : VideoDuration
  videoDefinition : VideoDefinition
  regionCode : String
  publishedAfter : PublishedAfter
deriving DecidableEq, Repr

/-- V2 `SearchParams` (`src/unnamed/part_000`): no recency-filter field. -/
structure SearchParamsV2 where
  q : String
  maxResults : Nat
  order : SortOrderV2
  type : ResultType
  videoDuration : VideoDuration
  videoDefinition : VideoDefinition
  regionCode : String
deriving DecidableEq, Repr

/-- `item.id`: at most one of the three identifiers is expected, plus a kind tag. -/
structure ResultId where
  videoId : Option String
  channelId : Option String
  playlistId : Option String
  kind : String
deriving DecidableEq, Repr

structure MediumThumbnail where
  url : String
deriving DecidableEq, Repr

structure Thumbnails where
  medium : MediumThumbnail
deriving DecidableEq, Repr

structure Snippet where
  title : String
  description : String
  thumbnails : Thumbnails
  channelTitle : String
deriving DecidableEq, Repr

structure YouTubeSearchResult where
  id : ResultId
  snippet : Snippet
deriving DecidableEq, Repr

/-- The object literal passed to `gapi.client.youtube.search.list`.
Enumeration fields are carried as the strings the wire request holds;
`publishedAfter` is `none` when the key is absent from the object (V2). -/
structure SearchRequest where
  part : List String
  pageToken : Option String
  q : String
  maxResults : Nat
  order : String
  type : String
  videoDuration : String
  videoDefinition : String
  regionCode : String
  publishedAfter : Option String
deriving DecidableEq, Repr

/-- `response.result` of a successful search call. -/
structure SearchResponse where
  items : List YouTubeSearchResult
  nextPageToken : Option String
  prevPageToken : Option String
deriving DecidableEq, Repr

/-- V1 recency translation (`page.tsx` lines 116-128): `week` and `day`
become `toISOString` of the clock minus the corresponding span, `any`
the literal epoch string. -/
def publishedAfterDate (now : Int) : PublishedAfter → String
  | .week => toISOString (now - 7 * 24 * 60 * 60 * 1000)
  | .day => toISOString (now - 24 * 60 * 60 * 1000)
  | .any => "1970-01-01T00:00:00Z"

/-- V1 request object (`page.tsx` lines 131-136): the spread of `params`
is followed by the override `publishedAfter: publishedAfterDate`, so the
computed timestamp is what the object finally carries. -/
def buildRequestV1 (now : Int) (p : SearchParams) (pageToken : Option String) : SearchRequest :=
  { part := ["snippet"]
    pageToken := pageToken
    q := p.q
    maxResults := p.maxResults
    order := p.order.toStr
    type := p.type.toStr
    videoDuration := p.videoDuration.toStr
    videoDefinition := p.videoDefinition.toStr
    regionCode := p.regionCode
    publishedAfter := some (publishedAfterDate now p.publishedAfter) }

/-- V2 request object (`part_000` lines 111-115): only `part`, `pageToken`
and the spread of `params`; no `publishedAfter` key exists. -/
def buildRequestV2 (p : SearchParamsV2) (pageToken : Option String) : SearchRequest :=
  { part := ["snippet"]
    pageToken := pageToken
    q := p.q
    maxResults := p.maxResults
    order := p.order.toStr
    type := p.type.toStr
    videoDuration := p.videoDuration.toStr
    videoDefinition := p.videoDefinition.toStr
    regionCode := p.regionCode
    publishedAfter := none }

/-- The component state of the V1 page, in declaration order. -/
structure AppState where
  tokenClient : Option Unit
  accessToken : Option String
  isGapiReady : Bool
  results : List YouTubeSearchResult
  loading : Bool
  nextPageToken : Option String
  prevPageToken : Option String
  params : SearchParams
deriving DecidableEq, Repr

/-- The component state of the V2 page. -/
structure AppStateV2 where
  tokenClient : Option Unit
  accessToken : Option String
  isGapiReady : Bool
  results : List YouTubeSearchResult
  loading : Bool
  nextPageToken : Option String
  prevPageToken : Option String
  params : SearchParamsV2
deriving DecidableEq, Repr

/-- Observable side effects of one `handleSearch` run: alerts shown,
console-error lines, the request handed to the external client (`none`
when the client was never invoked), and whether the page scrolled. -/
structure Effects where
  alerts : List String
  consoleErrors : List String
  requested : Option SearchRequest
  scrolledToTop : Bool
deriving DecidableEq, Repr

/-- V1 `handleSearch` (`page.tsx` lines 105-148) as a state transition.
The external call is a parameter `call`; its outcome drives the branch.
The token guard fires on a falsy `accessToken` before `setLoading(true)`;
on success the items and both coalesced cursors are stored and the page
scrolls; on failure only a console error is emitted; `finally` clears the
busy flag on both try paths. -/
def handleSearchV1 (now : Int) (call : SearchRequest → Except String SearchResponse)
    (s : AppState) (pageToken : Option String) : AppState × Effects :=
  if jsTruthy s.accessToken = false then
    (s, { alerts := ["Please authorize first!"], consoleErrors := [],
          requested := none, scrolledToTop := false })
  else
    let req := buildRequestV1 now s.params pageToken
    match call req with
    | Except.ok resp =>
        ({ s with results := resp.items
                  nextPageToken := orNull resp.nextPageToken
                  prevPageToken := orNull resp.prevPageToken
                  loading := false },
         { alerts := [], consoleErrors := [], requested := some req, scrolledToTop := true })
    | Except.error msg =>
        ({ s with loading := false },
         { alerts := [], consoleErrors := ["Search failed: " ++ msg],
           requested := some req, scrolledToTop := false })

/-- V2 `handleSearch` (`part_000` lines 104-130): identical shape, but the
stored list is `response.result.items.reverse()` and the request carries
no recency timestamp. -/
def handleSearchV2 (call : SearchRequest → Except String SearchResponse)
    (s : AppStateV2) (pageToken : Option String) : AppStateV2 × Effects :=
  if jsTruthy s.accessToken = false then
    (s, { alerts := ["Please authorize first!"], consoleErrors := [],
          requested := none, scrolledToTop := false })
  else
    let req := buildRequestV2 s.params pageToken
    match call req with
    | Except.ok resp =>
        ({ s with results := resp.items.reverse
                  nextPageToken := orNull resp.nextPageToken
                  prevPageToken := orNull resp.prevPageToken
                  loading := false },
         { alerts := [], consoleErrors := [], requested := some req, scrolledToTop := true })
    | Except.error msg =>
        ({ s with loading := false },
         { alerts := [], consoleErrors := ["Search failed: " ++ msg],
           requested := some req, scrolledToTop := false })

/-- `getUrl` (identical in both variants): first truthy identifier wins,
in the order video, playlist, channel; otherwise the fragment link. -/
def getUrl (item : YouTubeSearchResult) : String :=
  if jsTruthy item.id.videoId then
    "https://www.youtube.com/watch?v=" ++ item.id.videoId.getD ""
  else if jsTruthy item.id.playlistId then
    "https://www.youtube.com/playlist?list=" ++ item.id.playlistId.getD ""
  else if jsTruthy item.id.channelId then
    "https://www.youtube.com/channel/" ++ item.id.channelId.getD ""
  else "#"

/-- V1 submit button: `disabled={loading || !accessToken}`. -/
def submitDisabledV1 (s : AppState) : Bool :=
  s.loading || !jsTruthy s.accessToken

/-- V2 submit button: `disabled={loading || !accessToken}`. -/
def submitDisabledV2 (s : AppStateV2) : Bool :=
  s.loading || !jsTruthy s.accessToken

/-- V2 Previous Page button: `disabled={loading || !prevPageToken}`. -/
def prevDisabledV2 (s : AppStateV2) : Bool :=
  s.loading || !jsTruthy s.prevPageToken

/-- V2 Next Page button: `disabled={loading || !nextPageToken}`. -/
def nextDisabledV2 (s : AppStateV2) : Bool :=
  s.loading || !jsTruthy s.nextPageToken

/-- The pagination block is rendered only when `results.length > 0`
(`part_000` line 220). -/
def paginationRenderedV2 (s : AppStateV2) : Bool :=
  decide (0 < s.results.length)

/-- Environment seen by one polling tick: whether `gapi` is defined, and
whether `google` is defined with a truthy `google.accounts`. -/
structure PollEnv where
  gapiDefined : Bool
  googleDefined : Bool
  googleAccounts : Bool
deriving DecidableEq, Repr

/-- State of the init effect: the two one-shot flags, whether the interval
is still registered, and how many times each library client was
initialized (`gapi.load` calls, `initTokenClient` calls). -/
structure PollState where
  gapiInitStarted : Bool
  gisInitStarted : Bool
  intervalActive : Bool
  gapiLoadCalls : Nat
  gisInitCalls : Nat
deriving DecidableEq, Repr

/-- Effect entry: both flags clear, interval registered, nothing called. -/
def pollInit : PollState :=
  { gapiInitStarted := false, gisInitStarted := false, intervalActive := true,
    gapiLoadCalls := 0, gisInitCalls := 0 }

/-- One interval callback (`page.tsx` lines 63-94): a cancelled interval
fires no more; otherwise each library is initialized at most once, guarded
by its flag, and the callback clears the interval once both flags hold. -/
def pollTick (e : PollEnv) (s : PollState) : PollState :=
  if s.intervalActive = false then s
  else
    let s1 :=
      if e.gapiDefined && !s.gapiInitStarted then
        { s with gapiInitStarted := true, gapiLoadCalls := s.gapiLoadCalls + 1 }
      else s
    let s2 :=
      if e.googleDefined && e.googleAccounts && !s1.gisInitStarted then
        { s1 with gisInitStarted := true, gisInitCalls := s1.gisInitCalls + 1 }
      else s1
    if s2.gapiInitStarted && s2.gisInitStarted then
      { s2 with intervalActive := false }
    else s2

/-- Run the interval from mount over a sequence of tick environments. -/
def pollRun (trace : List PollEnv) : PollState :=
  trace.foldl (fun s e => pollTick e s) pollInit

/-- The effect cleanup (`return () => clearInterval(interval)`). -/
def pollCleanup (s : PollState) : PollState :=
  { s with intervalActive := false }

/-- Sanity anchor for the timestamp formatter: the epoch renders as the
ECMAScript `toISOString` output. -/
theorem toISOString_epoch : toISOString 0 = "1970-01-01T00:00:00.000Z" := by decide

/-- Second anchor: a modern instant renders correctly. -/
theorem toISOString_sample : toISOString 1760140800000 = "2025-10-11T00:00:00.000Z" := by
  decide

/-- C2: for every value of the clock, the recency translation maps `week`
to the ISO-8601 rendering of the instant exactly 7*24*60*60*1000 ms before
the clock, `day` to the rendering of the instant exactly 24*60*60*1000 ms
before the clock, and `any` to the fixed string 1970-01-01T00:00:00Z. -/
theorem c2_recency_translation (now : Int) :
    publishedAfterDate now PublishedAfter.week = toISOString (now - 7 * 24 * 60 * 60 * 1000) ∧
    publishedAfterDate now PublishedAfter.day = toISOString (now - 24 * 60 * 60 * 1000) ∧
    publishedAfterDate now PublishedAfter.any = "1970-01-01T00:00:00Z" :=
  ⟨rfl, rfl, rfl⟩

/-- C5: for a result item carrying an identifier of exactly one of the
three kinds (a truthy, i.e. non-empty, field), `getUrl` returns the watch
URL for a video identifier, the playlist URL for a playlist identifier,
the channel URL for a channel identifier, and the fragment link when the
item carries none of the three. -/
theorem c5_getUrl_formats (item : YouTubeSearchResult) :
    (∀ v, item.id.videoId = some v → v ≠ "" →
      jsTruthy item.id.playlistId = false → jsTruthy item.id.channelId = false →
      getUrl item = "https://www.youtube.com/watch?v=" ++ v) ∧
    (∀ p, item.id.playlistId = some p → p ≠ "" →
      jsTruthy item.id.videoId = false → jsTruthy item.id.channelId = false →
      getUrl item = "https://www.youtube.com/playlist?list=" ++ p) ∧
    (∀ c, item.id.channelId = some c → c ≠ "" →
      jsTruthy item.id.videoId = false → jsTruthy item.id.playlistId = false →
      getUrl item = "https://www.youtube.com/channel/" ++ c) ∧
    (jsTruthy item.id.videoId = false → jsTruthy item.id.playlistId = false →
      jsTruthy item.id.channelId = false → getUrl item = "#") := by
  refine ⟨?_, ?_, ?_, ?_⟩
  · intro v hv hne _ _
    have ht : jsTruthy item.id.videoId = true := by rw [hv]; simp [jsTruthy, hne]
    simp only [getUrl]
    rw [ht]
    simp [hv]
  · intro p hp hne hv _
    have ht : jsTruthy item.id.playlistId = true := by rw [hp]; simp [jsTruthy, hne]
    simp only [getUrl]
    rw [hv, ht]
    simp [hp]
  · intro c hc hne hv hp
    have ht : jsTruthy item.id.channelId = true := by rw [hc]; simp [jsTruthy, hne]
    simp only [getUrl]
    rw [hv, hp, ht]
    simp [hc]
  · intro hv hp hc
    simp [getUrl, hv, hp, hc]

/-- C5 witness: each of the four cases evaluated at a concrete item. -/
theorem c5_getUrl_formats_witness :
    getUrl ⟨⟨some "V", none, none, "k"⟩, ⟨"t", "d", ⟨⟨"u"⟩⟩, "c"⟩⟩ =
      "https://www.youtube.com/watch?v=" ++ "V" ∧
    getUrl ⟨⟨none, none, some "P", "k"⟩, ⟨"t", "d", ⟨⟨"u"⟩⟩, "c"⟩⟩ =
      "https://www.youtube.com/playlist?list=" ++ "P" ∧
    getUrl ⟨⟨none, some "C", none, "k"⟩, ⟨"t", "d", ⟨⟨"u"⟩⟩, "c"⟩⟩ =
      "https://www.youtube.com/channel/" ++ "C" ∧
    getUrl ⟨⟨none, none, none, "k"⟩, ⟨"t", "d", ⟨⟨"u"⟩⟩, "c"⟩⟩ = "#" :=
  ⟨(c5_getUrl_formats _).1 "V" rfl (by decide) rfl rfl,
   (c5_getUrl_formats _).2.1 "P" rfl (by decide) rfl rfl,
   (c5_getUrl_formats _).2.2.1 "C" rfl (by decide) rfl rfl,
   (c5_getUrl_formats _).2.2.2 rfl rfl rfl⟩

/-- C10: identifier precedence of `getUrl`. A truthy video identifier
yields the watch URL regardless of the playlist and channel fields, and
with no truthy video identifier a truthy playlist identifier yields the
playlist URL regardless of the channel field. -/
theorem c10_getUrl_precedence (item : YouTubeSearchResult) :
    (∀ v, item.id.videoId = some v → v ≠ "" →
      getUrl item = "https://www.youtube.com/watch?v=" ++ v) ∧
    (∀ p, jsTruthy item.id.videoId = false → item.id.playlistId = some p → p ≠ "" →
      getUrl item = "https://www.youtube.com/playlist?list=" ++ p) := by
  constructor
  · intro v hv hne
    have ht : jsTruthy item.id.videoId = true := by rw [hv]; simp [jsTruthy, hne]
    simp only [getUrl]
    rw [ht]
    simp [hv]
  · intro p hv hp hne
    have ht : jsTruthy item.id.playlistId = true := by rw [hp]; simp [jsTruthy, hne]
    simp only [getUrl]
    rw [hv, ht]
    simp [hp]

/-- C10 witness: an item carrying all three identifiers resolves to the
watch URL, and one carrying playlist and channel resolves to the playlist
URL. -/
theorem c10_getUrl_precedence_witness :
    getUrl ⟨⟨some "V", some "C", some "P", "k"⟩, ⟨"t", "d", ⟨⟨"u"⟩⟩, "c"⟩⟩ =
      "https://www.youtube.com/watch?v=" ++ "V" ∧
    getUrl ⟨⟨none, some "C", some "P", "k"⟩, ⟨"t", "d", ⟨⟨"u"⟩⟩, "c"⟩⟩ =
      "https://www.youtube.com/playlist?list=" ++ "P" :=
  ⟨(c10_getUrl_precedence _).1 "V" rfl (by decide),
   (c10_getUrl_precedence _).2 "P" rfl rfl (by decide)⟩

/-- C7: with the access token absent, both variants of `handleSearch`
alert and return before touching anything: the external client receives no
request, the authorization alert is the only effect, and the whole state
(results, cursors, busy flag, query parameters) is returned unchanged. -/
theorem c7_no_token_guard :
    (∀ (now : Int) (call : SearchRequest → Except String SearchResponse)
        (s : AppState) (tok : Option String), s.accessToken = none →
      handleSearchV1 now call s tok =
        (s, { alerts := ["Please authorize first!"], consoleErrors := [],
              requested := none, scrolledToTop := false })) ∧
    (∀ (call : SearchRequest → Except String SearchResponse)
        (s : AppStateV2) (tok : Option String), s.accessToken = none →
      handleSearchV2 call s tok =
        (s, { alerts := ["Please authorize first!"], consoleErrors := [],
              requested := none, scrolledToTop := false })) := by
  constructor
  · intro now call s tok h
    simp [handleSearchV1, h, jsTruthy]
  · intro call s tok h
    simp [handleSearchV2, h, jsTruthy]

/-- C7 witness: both guards evaluated at a concrete token-less state. -/
theorem c7_no_token_guard_witness :
    (AppState.accessToken ⟨none, none, false, [], false, none, none,
        ⟨"cats", 50, .relevance, .video, .any, .any, "US", .any⟩⟩ = none) ∧
    handleSearchV1 0 (fun _ => Except.error "net") ⟨none, none, false, [], false, none, none,
        ⟨"cats", 50, .relevance, .video, .any, .any, "US", .any⟩⟩ none =
      (⟨none, none, false, [], false, none, none,
        ⟨"cats", 50, .relevance, .video, .any, .any, "US", .any⟩⟩,
       { alerts := ["Please authorize first!"], consoleErrors := [],
         requested := none, scrolledToTop := false }) ∧
    handleSearchV2 (fun _ => Except.error "net") ⟨none, none, false, [], false, none, none,
        ⟨"cats", 50, .relevance, .video, .any, .any, "US"⟩⟩ none =
      (⟨none, none, false, [], false, none, none,
        ⟨"cats", 50, .relevance, .video, .any, .any, "US"⟩⟩,
       { alerts := ["Please authorize first!"], consoleErrors := [],
         requested := none, scrolledToTop := false }) :=
  ⟨rfl,
   c7_no_token_guard.1 0 (fun _ => Except.error "net") _ none rfl,
   c7_no_token_guard.2 (fun _ => Except.error "net") _ none rfl⟩

/-- C6: when the external call fails, both variants catch the error, log
one console line, raise no alert, do not scroll, and leave every state
field except the busy flag (results, both cursors, parameters) exactly as
it was; the busy flag ends cleared. -/
theorem c6_failure_preserves_state :
    (∀ (now : Int) (call : SearchRequest → Except String SearchResponse)
        (s : AppState) (tok : Option String) (msg : String),
      jsTruthy s.accessToken = true →
      call (buildRequestV1 now s.params tok) = Except.error msg →
      handleSearchV1 now call s tok =
        ({ s with loading := false },
         { alerts := [], consoleErrors := ["Search failed: " ++ msg],
           requested := some (buildRequestV1 now s.params tok), scrolledToTop := false })) ∧
    (∀ (call : SearchRequest → Except String SearchResponse)
        (s : AppStateV2) (tok : Option String) (msg : String),
      jsTruthy s.accessToken = true →
      call (buildRequestV2 s.params tok) = Except.error msg →
      handleSearchV2 call s tok =
        ({ s with loading := false },
         { alerts := [], consoleErrors := ["Search failed: " ++ msg],
           requested := some (buildRequestV2 s.params tok), scrolledToTop := false })) := by
  constructor
  · intro now call s tok msg h1 h2
    simp [handleSearchV1, h1, h2]
  · intro call s tok msg h1 h2
    simp [handleSearchV2, h1, h2]

/-- C6 witness: the failure path evaluated at a concrete authorized state
whose call always fails. -/
theorem c6_failure_preserves_state_witness :
    (jsTruthy (AppState.accessToken ⟨none, some "T", true, [], true, some "N", some "P",
        ⟨"cats", 50, .relevance, .video, .any, .any, "US", .any⟩⟩) = true) ∧
    handleSearchV1 0 (fun _ => Except.error "quota") ⟨none, some "T", true, [], true,
        some "N", some "P", ⟨"cats", 50, .relevance, .video, .any, .any, "US", .any⟩⟩ none =
      (⟨none, some "T", true, [], false, some "N", some "P",
        ⟨"cats", 50, .relevance, .video, .any, .any, "US", .any⟩⟩,
       { alerts := [], consoleErrors := ["Search failed: " ++ "quota"],
         requested := some (buildRequestV1 0
           ⟨"cats", 50, .relevance, .video, .any, .any, "US", .any⟩ none),
         scrolledToTop := false }) :=
  ⟨rfl,
   c6_failure_preserves_state.1 0 (fun _ => Except.error "quota") _ none "quota" rfl rfl⟩

/-- C1 fails as stated: in the `part_000` variant the stored result list
is the reverse of `response.result.items`, not the list in response
order; and in both variants a present-but-empty forward cursor is stored
as null rather than as itself because of the falsy coalescing. -/
theorem c1_counterexample :
    (handleSearchV2 (fun _ => Except.ok
        ⟨[⟨⟨some "a", none, none, "k"⟩, ⟨"tA", "d", ⟨⟨"u"⟩⟩, "c"⟩⟩,
          ⟨⟨some "b", none, none, "k"⟩, ⟨"tB", "d", ⟨⟨"u"⟩⟩, "c"⟩⟩], none, none⟩)
      ⟨none, some "T", true, [], true, none, none,
        ⟨"cats", 50, .relevance, .video, .any, .any, "US"⟩⟩ none).1.results ≠
      [⟨⟨some "a", none, none, "k"⟩, ⟨"tA", "d", ⟨⟨"u"⟩⟩, "c"⟩⟩,
       ⟨⟨some "b", none, none, "k"⟩, ⟨"tB", "d", ⟨⟨"u"⟩⟩, "c"⟩⟩] ∧
    (handleSearchV1 0 (fun _ => Except.ok ⟨[], some "", none⟩)
      ⟨none, some "T", true, [], true, none, none,
        ⟨"cats", 50, .relevance, .video, .any, .any, "US", .any⟩⟩ none).1.nextPageToken ≠
      some "" := by
  constructor
  · decide
  · decide

/-- C1 amended: on a successful response the V1 variant stores the items
in response order while the V2 variant stores them reversed; in both
variants each stored cursor is the response cursor when that cursor is a
non-empty string, and null when it is absent or empty (`orNull`). -/
theorem c1_amended_storage :
    (∀ (now : Int) (call : SearchRequest → Except String SearchResponse)
        (s : AppState) (tok : Option String) (resp : SearchResponse),
      jsTruthy s.accessToken = true →
      call (buildRequestV1 now s.params tok) = Except.ok resp →
      (handleSearchV1 now call s tok).1.results = resp.items ∧
      (handleSearchV1 now call s tok).1.nextPageToken = orNull resp.nextPageToken ∧
      (handleSearchV1 now call s tok).1.prevPageToken = orNull resp.prevPageToken) ∧
    (∀ (call : SearchRequest → Except String SearchResponse)
        (s : AppStateV2) (tok : Option String) (resp : SearchResponse),
      jsTruthy s.accessToken = true →
      call (buildRequestV2 s.params tok) = Except.ok resp →
      (handleSearchV2 call s tok).1.results = resp.items.reverse ∧
      (handleSearchV2 call s tok).1.nextPageToken = orNull resp.nextPageToken ∧
      (handleSearchV2 call s tok).1.prevPageToken = orNull resp.prevPageToken) := by
  constructor
  · intro now call s tok resp h1 h2
    simp [handleSearchV1, h1, h2]
  · intro call s tok resp h1 h2
    simp [handleSearchV2, h1, h2]

/-- C1 amended witness: a concrete successful response with one item and
one cursor of each presence kind, evaluated through both variants. -/
theorem c1_amended_storage_witness :
    (handleSearchV1 0 (fun _ => Except.ok
        ⟨[⟨⟨some "a", none, none, "k"⟩, ⟨"tA", "d", ⟨⟨"u"⟩⟩, "c"⟩⟩], some "N", none⟩)
      ⟨none, some "T", true, [], true, none, none,
        ⟨"cats", 50, .relevance, .video, .any, .any, "US", .any⟩⟩ none).1.results =
      [⟨⟨some "a", none, none, "k"⟩, ⟨"tA", "d", ⟨⟨"u"⟩⟩, "c"⟩⟩] ∧
    (handleSearchV2 (fun _ => Except.ok
        ⟨[⟨⟨some "a", none, none, "k"⟩, ⟨"tA", "d", ⟨⟨"u"⟩⟩, "c"⟩⟩,
          ⟨⟨some "b", none, none, "k"⟩, ⟨"tB", "d", ⟨⟨"u"⟩⟩, "c"⟩⟩], some "N", none⟩)
      ⟨none, some "T", true, [], true, none, none,
        ⟨"cats", 50, .relevance, .video, .any, .any, "US"⟩⟩ none).1.nextPageToken =
      orNull (some "N") := by
  constructor
  · exact (c1_amended_storage.1 0
      (fun _ => Except.ok
        ⟨[⟨⟨some "a", none, none, "k"⟩, ⟨"tA", "d", ⟨⟨"u"⟩⟩, "c"⟩⟩], some "N", none⟩)
      ⟨none, some "T", true, [], true, none, none,
        ⟨"cats", 50, .relevance, .video, .any, .any, "US", .any⟩⟩ none
      ⟨[⟨⟨some "a", none, none, "k"⟩, ⟨"tA", "d", ⟨⟨"u"⟩⟩, "c"⟩⟩], some "N", none⟩
      rfl rfl).1
  · exact (c1_amended_storage.2
      (fun _ => Except.ok
        ⟨[⟨⟨some "a", none, none, "k"⟩, ⟨"tA", "d", ⟨⟨"u"⟩⟩, "c"⟩⟩,
          ⟨⟨some "b", none, none, "k"⟩, ⟨"tB", "d", ⟨⟨"u"⟩⟩, "c"⟩⟩], some "N", none⟩)
      ⟨none, some "T", true, [], true, none, none,
        ⟨"cats", 50, .relevance, .video, .any, .any, "US"⟩⟩ none
      ⟨[⟨⟨some "a", none, none, "k"⟩, ⟨"tA", "d", ⟨⟨"u"⟩⟩, "c"⟩⟩,
        ⟨⟨some "b", none, none, "k"⟩, ⟨"tB", "d", ⟨⟨"u"⟩⟩, "c"⟩⟩], some "N", none⟩
      rfl rfl).2.1

/-- C3 fails as stated: in the only variant whose state carries a
recency-filter field (`page.tsx`), two states differing only in that
field yield different request objects, differing precisely in the
`publishedAfter` timestamp — the computed value is threaded into the
request; and the other variant (`part_000`) computes no recency value at
all, so its request carries no such key. -/
theorem c3_counterexample :
    buildRequestV1 0 ⟨"cats", 50, .relevance, .video, .any, .any, "US", .any⟩ none ≠
      buildRequestV1 0 ⟨"cats", 50, .relevance, .video, .any, .any, "US", .week⟩ none ∧
    (buildRequestV1 0 ⟨"cats", 50, .relevance, .video, .any, .any, "US", .any⟩ none).publishedAfter ≠
      (buildRequestV1 0 ⟨"cats", 50, .relevance, .video, .any, .any, "US", .week⟩ none).publishedAfter ∧
    (buildRequestV2 ⟨"cats", 50, .relevance, .video, .any, .any, "US"⟩ none).publishedAfter =
      none := by
  refine ⟨?_, ?_, rfl⟩
  · decide
  · decide

/-- C3 amended: neither variant computes a recency timestamp without
threading it into the request. The `page.tsx` request always carries the
computed translation of the state's recency filter in `publishedAfter`,
and the `part_000` state has no recency-filter field, its request
carrying no `publishedAfter` at all. -/
theorem c3_amended_threading :
    (∀ (now : Int) (p : SearchParams) (tok : Option String),
      (buildRequestV1 now p tok).publishedAfter =
        some (publishedAfterDate now p.publishedAfter)) ∧
    (∀ (p : SearchParamsV2) (tok : Option String),
      (buildRequestV2 p tok).publishedAfter = none) :=
  ⟨fun _ _ _ => rfl, fun _ _ => rfl⟩

/-- C4 fails as stated: `handleSearch` itself never consults the busy
flag. At a concrete state that is already loading and holds a token, the
invocation still hands a request to the external client. -/
theorem c4_counterexample :
    (AppState.loading ⟨none, some "T", true, [], true, none, none,
        ⟨"cats", 50, .relevance, .video, .any, .any, "US", .any⟩⟩ = true) ∧
    (handleSearchV1 0 (fun _ => Except.error "pending")
        ⟨none, some "T", true, [], true, none, none,
          ⟨"cats", 50, .relevance, .video, .any, .any, "US", .any⟩⟩ none).2.requested ≠
      none := by
  constructor
  · rfl
  · decide

/-- C4 amended: the busy flag does not guard `handleSearch` itself — any
invocation with a truthy token reaches the external call, pending or not;
the flag only disables the UI controls that trigger searches (the submit
button in both variants and both pagination buttons in V2), so overlap is
prevented only for clicks on those controls. -/
theorem c4_amended_no_flag_guard :
    (∀ (now : Int) (call : SearchRequest → Except String SearchResponse)
        (s : AppState) (tok : Option String),
      jsTruthy s.accessToken = true →
      (handleSearchV1 now call s tok).2.requested = some (buildRequestV1 now s.params tok)) ∧
    (∀ (call : SearchRequest → Except String SearchResponse)
        (s : AppStateV2) (tok : Option String),
      jsTruthy s.accessToken = true →
      (handleSearchV2 call s tok).2.requested = some (buildRequestV2 s.params tok)) ∧
    (∀ s : AppState, s.loading = true → submitDisabledV1 s = true) ∧
    (∀ s : AppStateV2, s.loading = true →
      submitDisabledV2 s = true ∧ prevDisabledV2 s = true ∧ nextDisabledV2 s = true) := by
  refine ⟨?_, ?_, ?_, ?_⟩
  · intro now call s tok h
    cases hc : call (buildRequestV1 now s.params tok) <;> simp [handleSearchV1, h, hc]
  · intro call s tok h
    cases hc : call (buildRequestV2 s.params tok) <;> simp [handleSearchV2, h, hc]
  · intro s h
    simp [submitDisabledV1, h]
  · intro s h
    simp [submitDisabledV2, prevDisabledV2, nextDisabledV2, h]

/-- C4 amended witness: a loading state with a token still produces a
request, and its buttons are all disabled. -/
theorem c4_amended_no_flag_guard_witness :
    (handleSearchV1 0 (fun _ => Except.error "pending")
        ⟨none, some "T", true, [], true, none, none,
          ⟨"cats", 50, .relevance, .video, .any, .any, "US", .any⟩⟩ none).2.requested =
      some (buildRequestV1 0 ⟨"cats", 50, .relevance, .video, .any, .any, "US", .any⟩ none) ∧
    submitDisabledV1 ⟨none, some "T", true, [], true, none, none,
        ⟨"cats", 50, .relevance, .video, .any, .any, "US", .any⟩⟩ = true ∧
    prevDisabledV2 ⟨none, some "T", true, [], true, some "N", some "P",
        ⟨"cats", 50, .relevance, .video, .any, .any, "US"⟩⟩ = true :=
  ⟨c4_amended_no_flag_guard.1 0 (fun _ => Except.error "pending")
      ⟨none, some "T", true, [], true, none, none,
        ⟨"cats", 50, .relevance, .video, .any, .any, "US", .any⟩⟩ none rfl,
   c4_amended_no_flag_guard.2.2.1 _ rfl,
   (c4_amended_no_flag_guard.2.2.2
      ⟨none, some "T", true, [], true, some "N", some "P",
        ⟨"cats", 50, .relevance, .video, .any, .any, "US"⟩⟩ rfl).2.1⟩

/-- C8 fails as stated: the disabled condition of each pagination button
is `loading || !cursor`, so in a rendered state with results, both
cursors present, and a search in flight, both buttons are disabled even
though their cursors are present. -/
theorem c8_counterexample :
    paginationRenderedV2 ⟨none, some "T", true,
        [⟨⟨some "a", none, none, "k"⟩, ⟨"tA", "d", ⟨⟨"u"⟩⟩, "c"⟩⟩], true,
        some "NEXT", some "PREV", ⟨"cats", 50, .relevance, .video, .any, .any, "US"⟩⟩ = true ∧
    prevDisabledV2 ⟨none, some "T", true,
        [⟨⟨some "a", none, none, "k"⟩, ⟨"tA", "d", ⟨⟨"u"⟩⟩, "c"⟩⟩], true,
        some "NEXT", some "PREV", ⟨"cats", 50, .relevance, .video, .any, .any, "US"⟩⟩ = true ∧
    nextDisabledV2 ⟨none, some "T", true,
        [⟨⟨some "a", none, none, "k"⟩, ⟨"tA", "d", ⟨⟨"u"⟩⟩, "c"⟩⟩], true,
        some "NEXT", some "PREV", ⟨"cats", 50, .relevance, .video, .any, .any, "US"⟩⟩ = true := by
  refine ⟨rfl, rfl, rfl⟩

/-- C8 amended: in every rendered state with a non-empty result list,
while no search is in flight each pagination button is disabled exactly
when its cursor is absent (falsy) and enabled when a non-empty cursor is
present; while a search is in flight both buttons are disabled regardless
of the cursors. -/
theorem c8_amended_buttons (s : AppStateV2) (_hr : paginationRenderedV2 s = true) :
    (s.loading = false →
      ((prevDisabledV2 s = true ↔ jsTruthy s.prevPageToken = false) ∧
       (nextDisabledV2 s = true ↔ jsTruthy s.nextPageToken = false))) ∧
    (s.loading = true → prevDisabledV2 s = true ∧ nextDisabledV2 s = true) := by
  constructor
  · intro h
    simp [prevDisabledV2, nextDisabledV2, h]
  · intro h
    simp [prevDisabledV2, nextDisabledV2, h]

/-- C8 amended witness: an idle rendered state with both cursors present
has both buttons enabled, and the busy counterpart has them disabled. -/
theorem c8_amended_buttons_witness :
    ((prevDisabledV2 ⟨none, some "T", true,
        [⟨⟨some "a", none, none, "k"⟩, ⟨"tA", "d", ⟨⟨"u"⟩⟩, "c"⟩⟩], false,
        some "NEXT", some "PREV", ⟨"cats", 50, .relevance, .video, .any, .any, "US"⟩⟩ = true ↔
      jsTruthy (some "PREV") = false) ∧
     (nextDisabledV2 ⟨none, some "T", true,
        [⟨⟨some "a", none, none, "k"⟩, ⟨"tA", "d", ⟨⟨"u"⟩⟩, "c"⟩⟩], false,
        some "NEXT", some "PREV", ⟨"cats", 50, .relevance, .video, .any, .any, "US"⟩⟩ = true ↔
      jsTruthy (some "NEXT") = false)) :=
  (c8_amended_buttons ⟨none, some "T", true,
      [⟨⟨some "a", none, none, "k"⟩, ⟨"tA", "d", ⟨⟨"u"⟩⟩, "c"⟩⟩], false,
      some "NEXT", some "PREV", ⟨"cats", 50, .relevance, .video, .any, .any, "US"⟩⟩
    rfl).1 rfl

/-- Run invariant of the polling interval: each counter matches its
one-shot flag, and whenever both flags hold the interval has been
cancelled. -/
def PollInv (s : PollState) : Prop :=
  s.gapiLoadCalls = (if s.gapiInitStarted then 1 else 0) ∧
  s.gisInitCalls = (if s.gisInitStarted then 1 else 0) ∧
  (s.gapiInitStarted = true → s.gisInitStarted = true → s.intervalActive = false)

theorem pollInit_inv : PollInv pollInit := by
  simp [PollInv, pollInit]

theorem pollTick_inv (e : PollEnv) (s : PollState) (h : PollInv s) :
    PollInv (pollTick e s) := by
  obtain ⟨ga, gi, ia, la, ic⟩ := s
  obtain ⟨ed, gd, ac⟩ := e
  obtain ⟨h1, h2, h3⟩ := h
  simp only [PollInv] at h1 h2 h3 ⊢
  cases ga <;> cases gi <;> cases ia <;> cases ed <;> cases gd <;> cases ac <;>
    simp_all [pollTick, PollInv]

theorem pollFold_inv (trace : List PollEnv) (s : PollState) (h : PollInv s) :
    PollInv (trace.foldl (fun t e => pollTick e t) s) := by
  induction trace generalizing s with
  | nil => exact h
  | cons e rest ih => exact ih (pollTick e s) (pollTick_inv e s h)

theorem pollRun_inv (trace : List PollEnv) : PollInv (pollRun trace) :=
  pollFold_inv trace pollInit pollInit_inv

/-- C9: over every sequence of tick environments starting from mount,
each library client is initialized at most once, and once both globals
have been detected the interval is no longer active; a tick of a
cancelled interval (self-cancelled or cleaned up at teardown) changes
nothing, so no polling step runs after both libraries are found. -/
theorem c9_poll_once_and_stops :
    (∀ trace : List PollEnv,
      (pollRun trace).gapiLoadCalls ≤ 1 ∧
      (pollRun trace).gisInitCalls ≤ 1 ∧
      ((pollRun trace).gapiInitStarted = true → (pollRun trace).gisInitStarted = true →
        (pollRun trace).intervalActive = false)) ∧
    (∀ (e : PollEnv) (s : PollState), s.intervalActive = false → pollTick e s = s) ∧
    (∀ (e : PollEnv) (s : PollState), pollTick e (pollCleanup s) = pollCleanup s) := by
  refine ⟨?_, ?_, ?_⟩
  · intro trace
    obtain ⟨h1, h2, h3⟩ := pollRun_inv trace
    refine ⟨?_, ?_, h3⟩
    · rw [h1]; split <;> simp
    · rw [h2]; split <;> simp
  · intro e s h
    simp [pollTick, h]
  · intro e s
    simp [pollTick, pollCleanup]

/-- C9 witness: a run in which both libraries appear on the second tick,
and a cancelled state that a further tick leaves untouched. -/
theorem c9_poll_once_and_stops_witness :
    ((pollRun [⟨false, false, false⟩, ⟨true, true, true⟩, ⟨true, true, true⟩]).gapiLoadCalls ≤ 1 ∧
     (pollRun [⟨false, false, false⟩, ⟨true, true, true⟩, ⟨true, true, true⟩]).gisInitCalls ≤ 1 ∧
     ((pollRun [⟨false, false, false⟩, ⟨true, true, true⟩, ⟨true, true, true⟩]).gapiInitStarted = true →
      (pollRun [⟨false, false, false⟩, ⟨true, true, true⟩, ⟨true, true, true⟩]).gisInitStarted = true →
      (pollRun [⟨false, false, false⟩, ⟨true, true, true⟩, ⟨true, true, true⟩]).intervalActive = false)) ∧
    (PollState.intervalActive ⟨true, true, false, 1, 1⟩ = false ∧
     pollTick ⟨true, true, true⟩ ⟨true, true, false, 1, 1⟩ = ⟨true, true, false, 1, 1⟩) ∧
    pollTick ⟨true, true, true⟩ (pollCleanup ⟨false, false, true, 0, 0⟩) =
      pollCleanup ⟨false, false, true, 0, 0⟩ :=
  ⟨c9_poll_once_and_stops.1 [⟨false, false, false⟩, ⟨true, true, true⟩, ⟨true, true, true⟩],
   ⟨rfl, c9_poll_once_and_stops.2.1 ⟨true, true, true⟩ ⟨true, true, false, 1, 1⟩ rfl⟩,
   c9_poll_once_and_stops.2.2 ⟨true, true, true⟩ ⟨false, false, true, 0, 0⟩⟩

end YTExplorer
